import Mathlib

/-!
Verification development for the tpDcc-libs-qt window chrome & theming
subsystem (`tpQtLib/core/window.py`, `tpQtLib/core/qtutils.py`).

The Python source is shallowly embedded: each relevant method becomes a pure
Lean function over an explicit state record; Qt object trees, signals and the
settings store are modelled as explicit data.  Machine-level details that the
claims depend on (the 28-bit mask in `qhash`, Qt's integer rectangle
arithmetic in `QRect.center`/`QRect.moveCenter`) are reproduced exactly.
-/

namespace TpQtLib

/-! ## qhash (`tpQtLib/core/qtutils.py`, `qhash`)

The Python function accepts a `str` (or `unicode`, Python 2) argument and
hashes its character codes; any other argument yields `-1`.  A string input is
embedded as the list of its character codes (`ord` values); any non-string
input is collapsed into the single constructor `other`, since the function
inspects nothing else about it. -/

/-- Input to `qhash`: either a string (list of character codes) or any
non-string Python value. -/
inductive QHashInput where
  | str : List Nat → QHashInput
  | other : QHashInput

/-- One iteration of the `qhash` loop:
`h = (h << 4) + ord(instr[i]); h ^= (h & 0xf0000000) >> 23; h &= 0x0fffffff`.
Python integers are unbounded, so the shift/add is plain arithmetic. -/
def qhashStep (h : Nat) (c : Nat) : Nat :=
  let h1 := h * 16 + c
  let h2 := Nat.xor h1 (Nat.shiftRight (Nat.land h1 0xf0000000) 23)
  Nat.land h2 0x0fffffff

/-- The loop of `qhash` over the character codes, accumulator starting at 0. -/
def qhashStr (l : List Nat) : Nat :=
  l.foldl qhashStep 0

/-- `qhash`: dispatch on the input kind, as the `isinstance` chain does. -/
def qhash : QHashInput → Int
  | .str l => (qhashStr l : Int)
  | .other => -1

/-! ## Geometry restore (`MainWindow.set_settings` lines 132-145, `center`)

`set_settings` restores the stored geometry, then re-centers the window when
`x <= 0 or y <= 0 or x >= screen_width or y >= screen_height`.  `center`
takes the frame geometry, overrides width/height, and moves its center to the
center of the screen, using Qt's integer rectangle arithmetic:
`QRect.center()` of a rectangle spanning `[0, w-1]` is `(w-1)/2`, and
`QRect.moveCenter(p)` sets `x = p.x - (width-1)/2` (C integer division;
all the divided quantities here are non-negative). -/

/-- A window geometry: position (may be negative) and size. -/
structure Geometry where
  x : Int
  y : Int
  w : Nat
  h : Nat
deriving DecidableEq, Repr

/-- The screen: `QApplication.desktop().screenGeometry()` with origin (0,0). -/
structure Screen where
  w : Nat
  h : Nat
deriving DecidableEq, Repr

/-- Qt `QRect.center().x()` of the screen rectangle `[0, w-1] × [0, h-1]`. -/
def screenCenterX (s : Screen) : Int := ((s.w - 1) / 2 : Nat)

/-- Qt `QRect.center().y()` of the screen rectangle. -/
def screenCenterY (s : Screen) : Int := ((s.h - 1) / 2 : Nat)

/-- Qt `QRect.moveCenter(p)`: reposition the rectangle so that its integer
center is (approximately) `p`; size is unchanged. -/
def moveCenter (g : Geometry) (cx cy : Int) : Geometry :=
  { g with x := cx - ((g.w - 1) / 2 : Nat), y := cy - ((g.h - 1) / 2 : Nat) }

/-- `MainWindow.center(width, height)`: take the frame geometry with the given
size and move its center to the center of the screen. -/
def center (s : Screen) (g : Geometry) : Geometry :=
  moveCenter g (screenCenterX s) (screenCenterY s)

/-- The out-of-screen test of `set_settings`:
`x <= 0 or y <= 0 or x >= screen_width or y >= screen_height`. -/
def outOfScreenCheck (s : Screen) (g : Geometry) : Bool :=
  decide (g.x ≤ 0) || decide (g.y ≤ 0) ||
    decide ((s.w : Int) ≤ g.x) || decide ((s.h : Int) ≤ g.y)

/-- The geometry-restoring step of `set_settings` (reached via `load` →
`load_settings` → `set_settings` when a stored geometry exists): restore the
stored geometry, then re-center when the check fires. -/
def set_settings_geometry (s : Screen) (g : Geometry) : Geometry :=
  if outOfScreenCheck s g then center s g else g

/-- A geometry is fully on-screen: both corners inside `[0,w) × [0,h)`. -/
def onScreen (s : Screen) (g : Geometry) : Bool :=
  decide (0 ≤ g.x) && decide (0 ≤ g.y) &&
    decide (g.x + g.w ≤ (s.w : Int)) && decide (g.y + g.h ≤ (s.h : Int))

/-! ## Docks (`MainWindow.add_dock`, `get_docks`)

`get_docks` collects the chrome's `QDockWidget` children; Qt appends new
children at the end of `children()`, so the list is in creation order and its
last element is the most recently added dock.  `add_dock` first tears down
every existing dock whose `windowTitle()` equals the requested name
(`deleteLater` destroys the container and, through Qt parent ownership, its
contained widget), creates a new dock holding the given widget, adds it, and
— when `tabify` is set and `docks` (captured before the teardown) is
non-empty — tabifies it onto `docks[-1]`. -/

/-- One docked panel: a `QDockWidget` whose `windowTitle()` is `title`,
holding the widget identified by `widgetId`. -/
structure DockEntry where
  title : String
  widgetId : Nat
deriving DecidableEq, Repr

/-- Dock-related state of a chrome: live `QDockWidget` children in creation
order, plus the record of torn-down containers and disposed widgets. -/
structure ChromeDocks where
  docks : List DockEntry
  destroyed : List DockEntry
  disposed : List Nat
deriving DecidableEq, Repr

/-- `MainWindow.get_docks()`: the `QDockWidget` children, in creation order. -/
def get_docks (s : ChromeDocks) : List DockEntry := s.docks

/-- `MainWindow.add_dock(name, widget, pos, tabify)`: duplicate teardown,
creation, insertion, optional tabification.  Returns the new state, the new
dock, and the dock the new one was tabified onto (if any). -/
def add_dock (s : ChromeDocks) (name : String) (wid : Nat) (tabify : Bool) :
    ChromeDocks × DockEntry × Option DockEntry :=
  let docks := get_docks s
  let dups := docks.filter (fun d => decide (d.title = name))
  let newDock : DockEntry := ⟨name, wid⟩
  let s' : ChromeDocks :=
    { docks := docks.filter (fun d => !decide (d.title = name)) ++ [newDock]
      destroyed := s.destroyed ++ dups
      disposed := s.disposed ++ dups.map (fun d => d.widgetId) }
  let target : Option DockEntry := if tabify then docks.getLast? else none
  (s', newDock, target)

/-! ## Single instance per name (`MainWindow.__init__` lines 46-61)

Before any other setup, the constructor asks the DCC host for its main
window, collects its child widgets whose `objectName` equals the requested
name (`findChildren(QWidget, name)`), and closes and `deleteLater`-disposes
each of them; the new window is then created (parented, by default, under
that same main window) and given `setObjectName(name)`.  The model covers
the default flow in a DCC host: the main window exists and `parent=None`, so
new chromes live among the main window's children. -/

/-- A live top-level widget under the DCC main window: its `objectName` plus
a unique object identity. -/
structure WinInstance where
  objectName : String
  uid : Nat
deriving DecidableEq, Repr

/-- Host-process state: the DCC main window's child widgets in creation
order, plus the record of windows closed and disposed so far. -/
structure ProcessState where
  mainChildren : List WinInstance
  closedWins : List WinInstance
deriving DecidableEq, Repr

/-- `MainWindow.__init__(name, parent=None, ...)`: close and dispose every
same-named child of the DCC main window, then register the new window. -/
def MainWindow_init (p : ProcessState) (name : String) (uid : Nat) : ProcessState :=
  let wins := p.mainChildren.filter (fun w => decide (w.objectName = name))
  { mainChildren :=
      p.mainChildren.filter (fun w => !decide (w.objectName = name)) ++ [⟨name, uid⟩]
    closedWins := p.closedWins ++ wins }

/-! ## Theme colors and `reload_stylesheet` (`MainWindow.reload_stylesheet`)

The method recomputes the theme's stylesheet, applies it to the chrome, and
iterates `self.main_layout.findChildren(QObject)` — the descendants of the
chrome's main layout, not of the whole chrome (the title dragger, status
bar, menu bar and dock widgets live outside `main_layout`).  For each
visited object it probes the five optional color setters with `hasattr` and
calls exactly those that are present, then calls `update()` when at least
one was present.  A widget is modelled by five capability flags, the five
color slots a present setter would write, and the `update()` mark. -/

/-- An RGBA color (`color.Color`). -/
structure Color where
  r : Nat
  g : Nat
  b : Nat
  a : Nat
deriving DecidableEq, Repr

/-- The five derived theme colors (`ITEM_TEXT_COLOR`,
`ITEM_TEXT_SELECTED_COLOR`, `ITEM_BACKGROUND_COLOR`,
`ITEM_BACKGROUND_HOVER_COLOR`, `ITEM_BACKGROUND_SELECTED_COLOR`). -/
structure ThemeColors where
  text : Color
  textSelected : Color
  background : Color
  backgroundHover : Color
  backgroundSelected : Color
deriving DecidableEq, Repr

/-- A theme, as `reload_stylesheet` consumes it: the five derived colors
parsed from `options()` and the `stylesheet()` string. -/
structure Theme where
  colors : ThemeColors
  sheet : String
deriving DecidableEq, Repr

/-- A descendant widget: which of the five color setters it exposes
(`hasattr`), the slot each setter writes, and whether `update()` ran. -/
structure CWidget where
  hasSetTextColor : Bool
  hasSetTextSelectedColor : Bool
  hasSetBackgroundColor : Bool
  hasSetBackgroundHoverColor : Bool
  hasSetBackgroundSelectedColor : Bool
  textColor : Option Color
  textSelectedColor : Option Color
  backgroundColor : Option Color
  backgroundHoverColor : Option Color
  backgroundSelectedColor : Option Color
  updated : Bool
deriving DecidableEq, Repr

/-- The per-widget body of the `reload_stylesheet` loop: each present setter
is called with its color (the five `hasattr` probes touch disjoint fields,
so the sequential chain is recorded field-wise), and `update()` runs when
any setter was found. -/
def applyThemeColors (tc : ThemeColors) (w : CWidget) : CWidget :=
  let found := w.hasSetTextColor || w.hasSetTextSelectedColor || w.hasSetBackgroundColor ||
    w.hasSetBackgroundHoverColor || w.hasSetBackgroundSelectedColor
  { w with
    textColor := if w.hasSetTextColor then some tc.text else w.textColor
    textSelectedColor :=
      if w.hasSetTextSelectedColor then some tc.textSelected else w.textSelectedColor
    backgroundColor := if w.hasSetBackgroundColor then some tc.background else w.backgroundColor
    backgroundHoverColor :=
      if w.hasSetBackgroundHoverColor then some tc.backgroundHover else w.backgroundHoverColor
    backgroundSelectedColor :=
      if w.hasSetBackgroundSelectedColor then some tc.backgroundSelected
      else w.backgroundSelectedColor
    updated := w.updated || found }

/-- The chrome's widget tree as `reload_stylesheet` sees it: the descendants
of `main_layout` (what `self.main_layout.findChildren(QObject)` yields) and
the chrome's remaining descendants (title dragger, status bar, menu bar,
docks and their contents), plus the applied stylesheet. -/
structure ChromeWidgets where
  mainLayoutWidgets : List CWidget
  otherDescendants : List CWidget
  styleSheet : String
deriving DecidableEq, Repr

/-- All descendant widgets of the chrome. -/
def allDescendants (c : ChromeWidgets) : List CWidget :=
  c.mainLayoutWidgets ++ c.otherDescendants

/-- `MainWindow.reload_stylesheet()`: apply the theme's stylesheet to the
chrome and run the color-propagation loop over `main_layout`'s findChildren
result. -/
def reload_stylesheet (th : Theme) (c : ChromeWidgets) : ChromeWidgets :=
  { c with
    styleSheet := th.sheet
    mainLayoutWidgets := c.mainLayoutWidgets.map (applyThemeColors th.colors) }

/-! ## Theme settings fallback (`MainWindow.set_settings` lines 152-157)

`set_settings` builds the theme settings as
`self.settings().getw('theme/accentColor') or def_theme_settings['accentColor']`
(same for the background): Python's `or` falls back when the stored value is
missing (`None`) or falsy (the empty string).  The built-in defaults come
from `default_settings()`. -/

/-- The theme part of a settings dictionary: the two recognized keys. -/
structure ThemeSettings where
  accentColor : String
  backgroundColor : String
deriving DecidableEq, Repr

/-- `MainWindow.default_settings()['theme']`: the built-in defaults. -/
def default_settings : ThemeSettings :=
  { accentColor := "rgb(0, 175, 240, 255)"
    backgroundColor := "rgb(60, 64, 79, 255)" }

/-- The settings store as `set_settings` reads it: `getw` returns the stored
value for a key, or `none` when the key is missing. -/
structure SettingsStore where
  getw : String → Option String

/-- Python `value or default` on an optional string: the default is used
when the value is missing or falsy (empty). -/
def pyOr (v : Option String) (d : String) : String :=
  match v with
  | none => d
  | some s => if s = "" then d else s

/-- The theme-settings resolution of `set_settings`: each key read through
`getw`, falling back to the built-in default. -/
def set_settings_theme (st : SettingsStore) : ThemeSettings :=
  { accentColor := pyOr (st.getw "theme/accentColor") default_settings.accentColor
    backgroundColor := pyOr (st.getw "theme/backgroundColor") default_settings.backgroundColor }

/-! ## Callbacks and close (`MainWindow.remove_callbacks`, `closeEvent`)

`remove_callbacks` iterates `for c in self._callbacks` while the body calls
`self._callbacks.remove(c)` — Python's list iterator advances an index over
the mutating list, so every other element is skipped — wraps the body in
`try/except` that logs any exception, and finally reassigns
`self._callbacks = list()`.  `closeEvent` runs `save_settings()`,
`remove_callbacks()`, `windowClosed.emit()` and `deleteLater()` in that
order. -/

/-- A registered external callback wrapper: an identity plus a flag marking
whether its teardown raises (to model the `except` path). -/
structure Callback where
  uid : Nat
  raisesOnCleanup : Bool
deriving DecidableEq, Repr

/-- Python `list.remove(c)`: drop the first element equal to `c`. -/
def removeFirst : List Callback → Callback → List Callback
  | [], _ => []
  | x :: xs, c => if x = c then xs else x :: removeFirst xs c

/-- Teardown of one callback (the `del c` of the loop body): raises when the
callback is flagged to. -/
def cleanupCallback (c : Callback) : Except String Unit :=
  if c.raisesOnCleanup then Except.error "cleanup failed" else Except.ok ()

/-- The `for c in self._callbacks` loop of `remove_callbacks`: take the
element at the iterator's index, remove it from the list, run its teardown,
and on an exception append to the error log instead of propagating. -/
def removeCallbacksLoop (cbs : List Callback) (i : Nat) (log : List String) :
    List Callback × List String :=
  if h : i < cbs.length then
    let c := cbs.get ⟨i, h⟩
    let cbs' := removeFirst cbs c
    match cleanupCallback c with
    | Except.ok _ => removeCallbacksLoop cbs' (i + 1) log
    | Except.error e => removeCallbacksLoop cbs' (i + 1) (log ++ [e])
  else (cbs, log)
termination_by cbs.length - i
decreasing_by
  all_goals
    have hgen : ∀ (l : List Callback) (c : Callback), c ∈ l →
        (removeFirst l c).length < l.length := by
      intro l
      induction l with
      | nil => intro c hc; cases hc
      | cons x xs ih =>
        intro c hc
        by_cases hx : x = c
        · simp [removeFirst, hx]
        · simp only [removeFirst, if_neg hx, List.length_cons]
          have hmem : c ∈ xs := by
            rcases List.mem_cons.mp hc with h1 | h1
            · exact absurd h1.symm hx
            · exact h1
          exact Nat.succ_lt_succ (ih c hmem)
  all_goals
    have hlt := hgen cbs (cbs.get ⟨i, h⟩) (cbs.get_mem i h)
    omega

/-- `MainWindow.remove_callbacks()`: run the loop (errors logged, never
propagated), then reassign `self._callbacks = list()`. -/
def remove_callbacks (cbs : List Callback) : List Callback × List String :=
  let r := removeCallbacksLoop cbs 0 []
  ([], r.2)

/-- The four externally visible teardown actions of `closeEvent`. -/
inductive TeardownStep where
  | persistSettings
  | releaseCallbacks
  | emitClosed
  | dispose
deriving DecidableEq, BEq, Repr

/-- State observed while a chrome closes: the ordered trace of teardown
actions, the registered callbacks, and whether settings were persisted. -/
structure CloseCtx where
  trace : List TeardownStep
  callbacks : List Callback
  settingsSaved : Bool
deriving Repr

/-- `self.save_settings()`: persist geometry and window state. -/
def save_settings_step (c : CloseCtx) : CloseCtx :=
  { c with settingsSaved := true, trace := c.trace ++ [TeardownStep.persistSettings] }

/-- `self.remove_callbacks()`: release the registered subscriptions. -/
def remove_callbacks_step (c : CloseCtx) : CloseCtx :=
  { c with
    callbacks := (remove_callbacks c.callbacks).1
    trace := c.trace ++ [TeardownStep.releaseCallbacks] }

/-- `self.windowClosed.emit()`: notify observers. -/
def emit_closed_step (c : CloseCtx) : CloseCtx :=
  { c with trace := c.trace ++ [TeardownStep.emitClosed] }

/-- `self.deleteLater()`: dispose the window. -/
def dispose_step (c : CloseCtx) : CloseCtx :=
  { c with trace := c.trace ++ [TeardownStep.dispose] }

/-- `MainWindow.closeEvent(event)`: the four teardown calls, in source
order. -/
def closeEvent (c : CloseCtx) : CloseCtx :=
  dispose_step (emit_closed_step (remove_callbacks_step (save_settings_step c)))

/-! ## Active dock tab (`MainWindow.set_active_dock_tab`)

The method iterates every `QTabBar` found under the chrome and every tab
index of each bar; where the tab's data resolves to the given dock widget it
calls `setCurrentIndex(i)`.  A tab bar is modelled by the list of widget
identities its tabs resolve to (`to_qt_object(bar.tabData(i))`) plus its
current index. -/

/-- One `QTabBar`: the widget identity behind each tab, and the currently
selected index. -/
structure TabBar where
  tabs : List Nat
  currentIndex : Nat
deriving DecidableEq, Repr

/-- The inner loop of `set_active_dock_tab` for one tab bar: scan the tab
indices in order and select each whose widget matches. -/
def selectDockTab (wid : Nat) (bar : TabBar) : TabBar :=
  (List.range bar.tabs.length).foldl
    (fun b i => if bar.tabs[i]? = some wid then { b with currentIndex := i } else b) bar

/-- `MainWindow.set_active_dock_tab(dock_widget)`: run the scan over every
tab bar found under the chrome. -/
def set_active_dock_tab (wid : Nat) (bars : List TabBar) : List TabBar :=
  bars.map (selectDockTab wid)

end TpQtLib

namespace TpQtLib

/-- Helper: the accumulator of `qhash` is masked to 28 bits at every step. -/
theorem qhashStep_le (h c : Nat) : qhashStep h c ≤ 0x0fffffff := by
  unfold qhashStep
  exact Nat.and_le_right

/-- Helper: the fold keeps the accumulator within the 28-bit range. -/
theorem qhashStr_le (l : List Nat) : qhashStr l ≤ 0x0fffffff := by
  unfold qhashStr
  cases l with
  | nil => exact Nat.zero_le _
  | cons c cs =>
    suffices h : ∀ (tl : List Nat) (acc : Nat), acc ≤ 0x0fffffff →
        tl.foldl qhashStep acc ≤ 0x0fffffff by
      exact h cs (qhashStep 0 c) (qhashStep_le 0 c)
    intro tl
    induction tl with
    | nil => intro acc hacc; exact hacc
    | cons d ds ih =>
      intro acc _
      exact ih (qhashStep acc d) (qhashStep_le acc d)

/-- Claim C10: for every string input, `qhash` returns an integer in
`[0, 0x0fffffff]` (the accumulator is masked to 28 bits on every iteration),
and for every non-string input it returns `-1`. -/
theorem qhash_bounds :
    (∀ l : List Nat, 0 ≤ qhash (.str l) ∧ qhash (.str l) ≤ 0x0fffffff) ∧
    qhash .other = -1 := by
  refine ⟨fun l => ⟨?_, ?_⟩, rfl⟩
  · exact Int.ofNat_nonneg _
  · show ((qhashStr l : Nat) : Int) ≤ 0x0fffffff
    exact_mod_cast qhashStr_le l

/-- Claim C2 as stated is refuted here: the geometry `(x=0, y=100, 100×100)`
is fully within a 1920×1080 screen, yet `set_settings` re-centers it (the
check fires on `x <= 0`), so the restored position is not kept unchanged. -/
theorem set_settings_onscreen_moved :
    onScreen ⟨1920, 1080⟩ ⟨0, 100, 100, 100⟩ = true ∧
    set_settings_geometry ⟨1920, 1080⟩ ⟨0, 100, 100, 100⟩ ≠ ⟨0, 100, 100, 100⟩ := by
  decide

/-- Claim C2 (amended): `load()` re-centers exactly when the stored position
has `x ≤ 0`, `y ≤ 0`, `x ≥ screen width` or `y ≥ screen height` — so a
stored geometry strictly inside the screen keeps its position unchanged,
while one whose origin lies on or outside those bounds (e.g. x=5000, y=5000
on a 1920×1080 screen) is re-centered; provided the window is no larger than
the screen, the re-centered geometry is fully on-screen. -/
theorem set_settings_geometry_spec (s : Screen) (g : Geometry)
    (hw1 : 1 ≤ g.w) (hws : g.w ≤ s.w) (hh1 : 1 ≤ g.h) (hhs : g.h ≤ s.h) :
    (outOfScreenCheck s g = true → onScreen s (set_settings_geometry s g) = true) ∧
    (outOfScreenCheck s g = false → set_settings_geometry s g = g) ∧
    (outOfScreenCheck s g = false ↔
      (0 < g.x ∧ 0 < g.y ∧ g.x < (s.w : Int) ∧ g.y < (s.h : Int))) := by
  refine ⟨?_, ?_, ?_⟩
  · intro hcheck
    simp only [set_settings_geometry, hcheck, if_true, center, moveCenter,
      screenCenterX, screenCenterY, onScreen, Bool.and_eq_true, decide_eq_true_eq]
    refine ⟨⟨⟨?_, ?_⟩, ?_⟩, ?_⟩ <;> omega
  · intro hcheck
    simp [set_settings_geometry, hcheck]
  · simp only [outOfScreenCheck, Bool.or_eq_false_iff, decide_eq_false_iff_not, not_le]
    omega

/-- Witness for C2 (amended): a 300×200 window stored at (5000, 5000) on a
1920×1080 screen is restored fully on-screen. -/
theorem set_settings_geometry_spec_witness :
    onScreen ⟨1920, 1080⟩
      (set_settings_geometry ⟨1920, 1080⟩ ⟨5000, 5000, 300, 200⟩) = true :=
  (set_settings_geometry_spec ⟨1920, 1080⟩ ⟨5000, 5000, 300, 200⟩
    (by decide) (by decide) (by decide) (by decide)).1 (by decide)

/-- Claim C1: `add_dock(name, w2, ...)` tears down every existing dock titled
`name` (its container destroyed, its contained widget disposed), and
afterwards exactly one dock with that title exists and holds `w2`; moreover,
if no two live docks shared a title before the call, none do after, so the
name-uniqueness invariant is preserved by every `add_dock`. -/
theorem add_dock_unique (s : ChromeDocks) (name : String) (wid : Nat) (tb : Bool) :
    ((add_dock s name wid tb).1.docks.filter (fun d => decide (d.title = name)) =
      [⟨name, wid⟩]) ∧
    (∀ d ∈ get_docks s, d.title = name →
      d ∈ (add_dock s name wid tb).1.destroyed ∧
      d.widgetId ∈ (add_dock s name wid tb).1.disposed) ∧
    (((get_docks s).map DockEntry.title).Nodup →
      (((add_dock s name wid tb).1.docks).map DockEntry.title).Nodup) := by
  refine ⟨?_, ?_, ?_⟩
  · simp only [add_dock, get_docks, List.filter_append]
    rw [List.filter_filter]
    simp
  · intro d hd hname
    simp only [get_docks] at hd
    constructor
    · simp only [add_dock, get_docks, List.mem_append]
      right
      simp only [List.mem_filter]
      exact ⟨hd, by simp [hname]⟩
    · simp only [add_dock, get_docks, List.mem_append]
      right
      simp only [List.mem_map]
      exact ⟨d, by simp [List.mem_filter, hd, hname]⟩
  · intro hnodup
    simp only [add_dock, get_docks, List.map_append, List.map_cons, List.map_nil]
    rw [List.nodup_append]
    refine ⟨?_, List.nodup_singleton _, ?_⟩
    · exact hnodup.sublist ((List.filter_sublist _).map _)
    · intro t ht
      simp only [List.mem_map, List.mem_filter] at ht
      obtain ⟨d, ⟨_, hd2⟩, rfl⟩ := ht
      simp only [List.mem_singleton]
      simp at hd2
      exact fun hc => hd2 hc

/-- Witness for C1: on a chrome holding docks "A" (widget 1) and "B"
(widget 5), `add_dock("A", 2)` leaves exactly one dock titled "A" holding
widget 2, tears down the old "A" dock, disposes widget 1, and the resulting
titles are duplicate-free. -/
theorem add_dock_unique_witness :
    ((add_dock ⟨[⟨"A", 1⟩, ⟨"B", 5⟩], [], []⟩ "A" 2 true).1.docks.filter
        (fun d => decide (d.title = "A")) = [⟨"A", 2⟩]) ∧
    (⟨"A", 1⟩ : DockEntry) ∈
      (add_dock ⟨[⟨"A", 1⟩, ⟨"B", 5⟩], [], []⟩ "A" 2 true).1.destroyed ∧
    (1 : Nat) ∈ (add_dock ⟨[⟨"A", 1⟩, ⟨"B", 5⟩], [], []⟩ "A" 2 true).1.disposed ∧
    (((add_dock ⟨[⟨"A", 1⟩, ⟨"B", 5⟩], [], []⟩ "A" 2 true).1.docks).map
      DockEntry.title).Nodup := by
  have h := add_dock_unique ⟨[⟨"A", 1⟩, ⟨"B", 5⟩], [], []⟩ "A" 2 true
  have h2 := h.2.1 ⟨"A", 1⟩ (by simp [get_docks]) rfl
  exact ⟨h.1, h2.1, h2.2, h.2.2 (by simp [get_docks])⟩

/-- Claim C7: with `tabify = true`, the new dock is tabified onto the last
element of the pre-existing dock list — the most recently added existing dock
(children order is creation order); with `tabify = false`, or when no other
dock exists, the new dock is not tabified. -/
theorem add_dock_tabify (s : ChromeDocks) (name : String) (wid : Nat) :
    ((add_dock s name wid true).2.2 = (get_docks s).getLast?) ∧
    ((add_dock s name wid false).2.2 = none) ∧
    (get_docks s = [] → (add_dock s name wid true).2.2 = none) := by
  refine ⟨rfl, rfl, ?_⟩
  intro h
  simp only [get_docks] at h
  simp [add_dock, get_docks, h]

/-- Witness for C7: adding a dock to an empty chrome with `tabify = true`
tabifies onto nothing. -/
theorem add_dock_tabify_witness :
    (add_dock ⟨[], [], []⟩ "A" 7 true).2.2 = none :=
  (add_dock_tabify ⟨[], [], []⟩ "A" 7).2.2 rfl

/-- Claim C3: constructing a chrome with a given name closes and disposes
every pre-existing live instance with that name among the host main window's
children, and afterwards exactly one live instance with that name exists. -/
theorem MainWindow_init_unique (p : ProcessState) (name : String) (uid : Nat) :
    ((MainWindow_init p name uid).mainChildren.filter
        (fun w => decide (w.objectName = name)) = [⟨name, uid⟩]) ∧
    (∀ w ∈ p.mainChildren, w.objectName = name →
      w ∈ (MainWindow_init p name uid).closedWins) := by
  constructor
  · simp only [MainWindow_init, List.filter_append]
    rw [List.filter_filter]
    simp
  · intro w hw hname
    simp only [MainWindow_init, List.mem_append]
    right
    simp only [List.mem_filter]
    exact ⟨hw, by simp [hname]⟩

/-- Witness for C3: with two live windows named "tool" (uids 1 and 2) and
one named "other", constructing a new "tool" (uid 9) leaves exactly one
"tool" child alive and closes both old ones. -/
theorem MainWindow_init_unique_witness :
    ((MainWindow_init ⟨[⟨"tool", 1⟩, ⟨"other", 3⟩, ⟨"tool", 2⟩], []⟩ "tool" 9).mainChildren.filter
        (fun w => decide (w.objectName = "tool")) = [⟨"tool", 9⟩]) ∧
    (⟨"tool", 1⟩ : WinInstance) ∈
      (MainWindow_init ⟨[⟨"tool", 1⟩, ⟨"other", 3⟩, ⟨"tool", 2⟩], []⟩ "tool" 9).closedWins ∧
    (⟨"tool", 2⟩ : WinInstance) ∈
      (MainWindow_init ⟨[⟨"tool", 1⟩, ⟨"other", 3⟩, ⟨"tool", 2⟩], []⟩ "tool" 9).closedWins := by
  have h := MainWindow_init_unique ⟨[⟨"tool", 1⟩, ⟨"other", 3⟩, ⟨"tool", 2⟩], []⟩ "tool" 9
  exact ⟨h.1, h.2 ⟨"tool", 1⟩ (by simp) rfl, h.2 ⟨"tool", 2⟩ (by simp) rfl⟩

/-- Claim C4 as stated is refuted here: a widget exposing
`set_background_color` that is a descendant of the chrome but sits outside
the `main_layout` subtree (here: among the other descendants, where the
title dragger, status bar, menu bar and docks live) is a descendant of the
chrome after `reload_stylesheet`, still exposes the setter, and yet its
background color was never set — the loop only visits
`self.main_layout.findChildren(QObject)`. -/
theorem reload_stylesheet_misses_outside_widget :
    ((⟨false, false, true, false, false, none, none, none, none, none, false⟩ : CWidget) ∈
      allDescendants (reload_stylesheet
        ⟨⟨⟨1, 1, 1, 1⟩, ⟨2, 2, 2, 2⟩, ⟨3, 3, 3, 3⟩, ⟨4, 4, 4, 4⟩, ⟨5, 5, 5, 5⟩⟩, "qss"⟩
        ⟨[], [⟨false, false, true, false, false, none, none, none, none, none, false⟩],
          "old"⟩)) ∧
    (⟨false, false, true, false, false, none, none, none, none, none,
      false⟩ : CWidget).hasSetBackgroundColor = true ∧
    (⟨false, false, true, false, false, none, none, none, none, none,
      false⟩ : CWidget).backgroundColor ≠ some (⟨3, 3, 3, 3⟩ : Color) := by
  decide

/-- Claim C4 (amended): `reload_stylesheet()` applies the theme stylesheet
to the chrome and, for each of the five derived colors, calls the
corresponding color-setter on every widget the loop visits — the descendants
of the chrome's main layout — that exposes it; visited widgets lacking every
setter have nothing called on them, no call ever raises, and the chrome's
descendants outside the main-layout subtree are left untouched. -/
theorem reload_stylesheet_spec (th : Theme) (ch : ChromeWidgets) :
    ((reload_stylesheet th ch).styleSheet = th.sheet) ∧
    (∀ w ∈ (reload_stylesheet th ch).mainLayoutWidgets,
      (w.hasSetTextColor = true → w.textColor = some th.colors.text) ∧
      (w.hasSetTextSelectedColor = true → w.textSelectedColor = some th.colors.textSelected) ∧
      (w.hasSetBackgroundColor = true → w.backgroundColor = some th.colors.background) ∧
      (w.hasSetBackgroundHoverColor = true →
        w.backgroundHoverColor = some th.colors.backgroundHover) ∧
      (w.hasSetBackgroundSelectedColor = true →
        w.backgroundSelectedColor = some th.colors.backgroundSelected)) ∧
    (∀ w ∈ ch.mainLayoutWidgets,
      w.hasSetTextColor = false → w.hasSetTextSelectedColor = false →
      w.hasSetBackgroundColor = false → w.hasSetBackgroundHoverColor = false →
      w.hasSetBackgroundSelectedColor = false → applyThemeColors th.colors w = w) ∧
    ((reload_stylesheet th ch).otherDescendants = ch.otherDescendants) := by
  refine ⟨rfl, ?_, ?_, rfl⟩
  · intro w hw
    simp only [reload_stylesheet, List.mem_map] at hw
    obtain ⟨v, hv, rfl⟩ := hw
    refine ⟨?_, ?_, ?_, ?_, ?_⟩ <;>
      · intro hflag
        simp only [applyThemeColors] at hflag ⊢
        simp only [hflag, if_true]
  · intro w _ h1 h2 h3 h4 h5
    cases w
    simp_all [applyThemeColors]

/-- Witness for C4 (amended): on a chrome whose main layout holds one widget
exposing only `set_background_color` and one exposing nothing, reloading a
concrete theme sets the first widget's background, leaves the second
untouched, applies the stylesheet, and keeps the outside descendants. -/
theorem reload_stylesheet_spec_witness :
    ((reload_stylesheet ⟨⟨⟨1, 1, 1, 1⟩, ⟨2, 2, 2, 2⟩, ⟨3, 3, 3, 3⟩, ⟨4, 4, 4, 4⟩,
        ⟨5, 5, 5, 5⟩⟩, "qss"⟩
      ⟨[⟨false, false, true, false, false, none, none, none, none, none, false⟩,
        ⟨false, false, false, false, false, none, none, none, none, none, false⟩], [],
        "old"⟩).styleSheet = "qss") ∧
    (∀ w ∈ (reload_stylesheet ⟨⟨⟨1, 1, 1, 1⟩, ⟨2, 2, 2, 2⟩, ⟨3, 3, 3, 3⟩, ⟨4, 4, 4, 4⟩,
        ⟨5, 5, 5, 5⟩⟩, "qss"⟩
      ⟨[⟨false, false, true, false, false, none, none, none, none, none, false⟩,
        ⟨false, false, false, false, false, none, none, none, none, none, false⟩], [],
        "old"⟩).mainLayoutWidgets,
      w.hasSetBackgroundColor = true → w.backgroundColor = some ⟨3, 3, 3, 3⟩) ∧
    (applyThemeColors ⟨⟨1, 1, 1, 1⟩, ⟨2, 2, 2, 2⟩, ⟨3, 3, 3, 3⟩, ⟨4, 4, 4, 4⟩, ⟨5, 5, 5, 5⟩⟩
        ⟨false, false, false, false, false, none, none, none, none, none, false⟩ =
      ⟨false, false, false, false, false, none, none, none, none, none, false⟩) := by
  have h := reload_stylesheet_spec
    ⟨⟨⟨1, 1, 1, 1⟩, ⟨2, 2, 2, 2⟩, ⟨3, 3, 3, 3⟩, ⟨4, 4, 4, 4⟩, ⟨5, 5, 5, 5⟩⟩, "qss"⟩
    ⟨[⟨false, false, true, false, false, none, none, none, none, none, false⟩,
      ⟨false, false, false, false, false, none, none, none, none, none, false⟩], [], "old"⟩
  refine ⟨h.1, fun w hw hflag => (h.2.1 w hw).2.2.1 hflag, ?_⟩
  exact h.2.2.1 ⟨false, false, false, false, false, none, none, none, none, none, false⟩
    (by decide) rfl rfl rfl rfl rfl

/-- Claim C5: when `theme/accentColor` or `theme/backgroundColor` is missing
from the settings store (or resolves to a falsy value), `load()` applies the
built-in defaults `rgb(0, 175, 240, 255)` and `rgb(60, 64, 79, 255)` for the
missing keys; a stored truthy value is used as-is, and resolution is a total
function — a missing key never surfaces as an error. -/
theorem set_settings_theme_defaults (st : SettingsStore) :
    ((st.getw "theme/accentColor" = none ∨ st.getw "theme/accentColor" = some "") →
      (set_settings_theme st).accentColor = "rgb(0, 175, 240, 255)") ∧
    ((st.getw "theme/backgroundColor" = none ∨ st.getw "theme/backgroundColor" = some "") →
      (set_settings_theme st).backgroundColor = "rgb(60, 64, 79, 255)") ∧
    (∀ v, st.getw "theme/accentColor" = some v → v ≠ "" →
      (set_settings_theme st).accentColor = v) ∧
    (∀ v, st.getw "theme/backgroundColor" = some v → v ≠ "" →
      (set_settings_theme st).backgroundColor = v) := by
  refine ⟨?_, ?_, ?_, ?_⟩
  · rintro (h | h) <;> simp [set_settings_theme, pyOr, default_settings, h]
  · rintro (h | h) <;> simp [set_settings_theme, pyOr, default_settings, h]
  · intro v hv hne
    simp [set_settings_theme, pyOr, hv, hne]
  · intro v hv hne
    simp [set_settings_theme, pyOr, hv, hne]

/-- Witness for C5: on a store with no keys at all, both theme keys resolve
to the built-in defaults. -/
theorem set_settings_theme_defaults_witness :
    (set_settings_theme ⟨fun _ => none⟩).accentColor = "rgb(0, 175, 240, 255)" ∧
    (set_settings_theme ⟨fun _ => none⟩).backgroundColor = "rgb(60, 64, 79, 255)" :=
  ⟨(set_settings_theme_defaults ⟨fun _ => none⟩).1 (Or.inl rfl),
    (set_settings_theme_defaults ⟨fun _ => none⟩).2.1 (Or.inl rfl)⟩

/-- Claim C6: closing the chrome performs, in this exact order, settings
persistence, release of the registered callbacks, the "closed" notification,
and disposal; in particular settings are persisted strictly before the
closed notification is emitted. -/
theorem closeEvent_order (c : CloseCtx) :
    ((closeEvent c).trace = c.trace ++
      [TeardownStep.persistSettings, TeardownStep.releaseCallbacks,
        TeardownStep.emitClosed, TeardownStep.dispose]) ∧
    ((closeEvent c).settingsSaved = true) ∧
    ((closeEvent c).callbacks = []) ∧
    (c.trace = [] →
      (closeEvent c).trace.indexOf TeardownStep.persistSettings <
        (closeEvent c).trace.indexOf TeardownStep.emitClosed) := by
  refine ⟨?_, rfl, rfl, ?_⟩
  · simp [closeEvent, save_settings_step, remove_callbacks_step, emit_closed_step,
      dispose_step]
  · intro h
    simp only [closeEvent, save_settings_step, remove_callbacks_step, emit_closed_step,
      dispose_step, h, List.nil_append]
    decide

/-- Witness for C6: a closing chrome with an empty trace and one registered
callback whose teardown raises still produces the exact four-step trace,
persists settings before emitting, and ends with no callbacks. -/
theorem closeEvent_order_witness :
    ((closeEvent ⟨[], [⟨0, true⟩], false⟩).trace =
      [TeardownStep.persistSettings, TeardownStep.releaseCallbacks,
        TeardownStep.emitClosed, TeardownStep.dispose]) ∧
    ((closeEvent ⟨[], [⟨0, true⟩], false⟩).callbacks = []) ∧
    ((closeEvent ⟨[], [⟨0, true⟩], false⟩).trace.indexOf TeardownStep.persistSettings <
      (closeEvent ⟨[], [⟨0, true⟩], false⟩).trace.indexOf TeardownStep.emitClosed) := by
  have h := closeEvent_order ⟨[], [⟨0, true⟩], false⟩
  exact ⟨by simpa using h.1, h.2.2.1, h.2.2.2 rfl⟩

/-- Helper: removing a present element shortens the list. -/
theorem removeFirst_length_lt (l : List Callback) (c : Callback) (hc : c ∈ l) :
    (removeFirst l c).length < l.length := by
  induction l with
  | nil => cases hc
  | cons x xs ih =>
    by_cases hx : x = c
    · simp [removeFirst, hx]
    · simp only [removeFirst, if_neg hx, List.length_cons]
      have hmem : c ∈ xs := by
        rcases List.mem_cons.mp hc with h1 | h1
        · exact absurd h1.symm hx
        · exact h1
      exact Nat.succ_lt_succ (ih hmem)

/-- Helper: each loop iteration adds at most one log entry, so the log grows
by at most the number of remaining iterations. -/
theorem removeCallbacksLoop_log_le :
    ∀ (n : Nat) (cbs : List Callback) (i : Nat) (log : List String), cbs.length - i ≤ n →
      (removeCallbacksLoop cbs i log).2.length ≤ log.length + (cbs.length - i) := by
  intro n
  induction n with
  | zero =>
    intro cbs i log hle
    rw [removeCallbacksLoop]
    have : ¬ i < cbs.length := by omega
    simp [this]
  | succ n ih =>
    intro cbs i log hle
    rw [removeCallbacksLoop]
    by_cases h : i < cbs.length
    · have hmemlen : (removeFirst cbs (cbs.get ⟨i, h⟩)).length < cbs.length :=
        removeFirst_length_lt cbs (cbs.get ⟨i, h⟩) (cbs.get_mem i h)
      simp only [dif_pos h]
      cases hc : cleanupCallback (cbs.get ⟨i, h⟩) with
      | ok u =>
        dsimp only
        have := ih (removeFirst cbs (cbs.get ⟨i, h⟩)) (i + 1) log (by omega)
        omega
      | error e =>
        dsimp only
        have := ih (removeFirst cbs (cbs.get ⟨i, h⟩)) (i + 1) (log ++ [e]) (by omega)
        simp only [List.length_append, List.length_cons, List.length_nil] at this ⊢
        omega
    · simp [h]

/-- Claim C9: `remove_callbacks()` is a total function of the prior callback
list — every teardown exception is diverted into the error log rather than
propagated — the callback list is empty afterwards, and the log holds at
most one entry per original callback. -/
theorem remove_callbacks_spec (cbs : List Callback) :
    ((remove_callbacks cbs).1 = []) ∧
    ((remove_callbacks cbs).2.length ≤ cbs.length) := by
  refine ⟨rfl, ?_⟩
  have h := removeCallbacksLoop_log_le cbs.length cbs 0 [] (by omega)
  simpa [remove_callbacks] using h

/-- Helper: the per-bar scan never changes the bar's tabs. -/
theorem selectDockTab_foldl_tabs (wid : Nat) (bar : TabBar) :
    ∀ (l : List Nat) (b : TabBar),
      (l.foldl (fun b i => if bar.tabs[i]? = some wid then { b with currentIndex := i } else b)
        b).tabs = b.tabs := by
  intro l
  induction l with
  | nil => intro b; rfl
  | cons i l ih =>
    intro b
    simp only [List.foldl_cons]
    by_cases hc : bar.tabs[i]? = some wid
    · rw [if_pos hc]; exact ih _
    · rw [if_neg hc]; exact ih _

/-- Helper: scanning a bar that does not contain the widget is a no-op. -/
theorem selectDockTab_not_mem (wid : Nat) (bar : TabBar) (h : wid ∉ bar.tabs) :
    selectDockTab wid bar = bar := by
  unfold selectDockTab
  have haux : ∀ (l : List Nat) (b : TabBar),
      (∀ i ∈ l, bar.tabs[i]? ≠ some wid) →
      l.foldl (fun b i => if bar.tabs[i]? = some wid then { b with currentIndex := i } else b) b
        = b := by
    intro l
    induction l with
    | nil => intro b _; rfl
    | cons i l ih =>
      intro b hl
      simp only [List.foldl_cons, if_neg (hl i (List.mem_cons_self i l))]
      exact ih b (fun j hj => hl j (List.mem_cons_of_mem i hj))
  refine haux _ bar (fun i _ hc => h ?_)
  obtain ⟨hlt, hEq⟩ := List.getElem?_eq_some.mp hc
  exact hEq ▸ List.getElem_mem hlt

/-- Helper: scanning a bar containing the widget keeps its tabs and leaves
the current index on a tab holding the widget. -/
theorem selectDockTab_mem (wid : Nat) (bar : TabBar) (h : wid ∈ bar.tabs) :
    (selectDockTab wid bar).tabs = bar.tabs ∧
    bar.tabs[(selectDockTab wid bar).currentIndex]? = some wid := by
  refine ⟨selectDockTab_foldl_tabs wid bar _ bar, ?_⟩
  unfold selectDockTab
  have haux : ∀ (l : List Nat) (b : TabBar),
      ((∃ i ∈ l, bar.tabs[i]? = some wid) ∨ bar.tabs[b.currentIndex]? = some wid) →
      bar.tabs[(l.foldl
        (fun b i => if bar.tabs[i]? = some wid then { b with currentIndex := i } else b)
        b).currentIndex]? = some wid := by
    intro l
    induction l with
    | nil =>
      intro b hb
      rcases hb with ⟨i, hi, _⟩ | hb
      · cases hi
      · exact hb
    | cons i l ih =>
      intro b hb
      simp only [List.foldl_cons]
      by_cases hc : bar.tabs[i]? = some wid
      · rw [if_pos hc]
        exact ih _ (Or.inr hc)
      · rw [if_neg hc]
        refine ih b ?_
        rcases hb with ⟨j, hj, hjw⟩ | hb
        · rcases List.mem_cons.mp hj with rfl | hj2
          · exact absurd hjw hc
          · exact Or.inl ⟨j, hj2, hjw⟩
        · exact Or.inr hb
  obtain ⟨i, hlen, hget⟩ := List.getElem_of_mem h
  refine haux _ bar (Or.inl ⟨i, List.mem_range.mpr hlen, ?_⟩)
  simp [List.getElem?_eq_getElem hlen, hget]

/-- Claim C8: `set_active_dock_tab(dock_widget)` for a widget that is in no
tab strip leaves every tab bar unchanged (and raises nothing); for a widget
that is in some tab strip, the strip containing it ends with its current
index on the tab holding that widget, tabs unchanged. -/
theorem set_active_dock_tab_spec (wid : Nat) (bars : List TabBar) :
    ((∀ bar ∈ bars, wid ∉ bar.tabs) → set_active_dock_tab wid bars = bars) ∧
    (∀ bar ∈ bars, wid ∈ bar.tabs →
      (selectDockTab wid bar).tabs = bar.tabs ∧
      bar.tabs[(selectDockTab wid bar).currentIndex]? = some wid ∧
      selectDockTab wid bar ∈ set_active_dock_tab wid bars) := by
  constructor
  · intro h
    unfold set_active_dock_tab
    have hfix : ∀ bar ∈ bars, selectDockTab wid bar = bar :=
      fun bar hb => selectDockTab_not_mem wid bar (h bar hb)
    calc bars.map (selectDockTab wid) = bars.map id := List.map_congr_left hfix
    _ = bars := List.map_id bars
  · intro bar hb hmem
    obtain ⟨ht, hg⟩ := selectDockTab_mem wid bar hmem
    exact ⟨ht, hg, List.mem_map_of_mem _ hb⟩

/-- Witness for C8: with a single tab strip holding widgets 3 and 7,
selecting widget 9 (tabbed nowhere) changes nothing, and selecting widget 7
puts the strip's current index on the tab holding 7. -/
theorem set_active_dock_tab_spec_witness :
    (set_active_dock_tab 9 [⟨[3, 7], 0⟩] = [⟨[3, 7], 0⟩]) ∧
    ((selectDockTab 7 (⟨[3, 7], 0⟩ : TabBar)).tabs = [3, 7] ∧
      ([3, 7] : List Nat)[(selectDockTab 7 (⟨[3, 7], 0⟩ : TabBar)).currentIndex]? = some 7) := by
  have h1 := (set_active_dock_tab_spec 9 [⟨[3, 7], 0⟩]).1 (by decide)
  have h2 := (set_active_dock_tab_spec 7 [⟨[3, 7], 0⟩]).2 ⟨[3, 7], 0⟩ (by decide) (by decide)
  exact ⟨h1, h2.1, h2.2.1⟩

end TpQtLib
